import Mathlib

/-
Verification of the echo-insight-system feedback dashboard.

The definitions below are shallow embeddings of the client-side logic of
the repository: the aggregation pipeline (Analytics.tsx and the dashboard
overview), the filter/search composer (AdvancedSearch.tsx,
FeedbackManagement.tsx), the pagination controller and the real-time
notification bridge (RealTimeNotifications.tsx).  Nullable numeric ratings
are modelled as `Option Rat`; the JavaScript coercions `Number(x) || 0`
(null becomes 0) and truthiness tests are made explicit.
-/

namespace EchoInsight

/-- A feedback row, restricted to the fields the verified logic reads.
`average_rating` is the nullable numeric rating column. -/
structure Feedback where
  average_rating : Option ℚ
  deriving DecidableEq

/-- JavaScript numeric coercion of a nullable rating:
`Number(null) = 0`, and `Number(r) || 0 = r` for a stored numeric `r`
(the dashboard code applies `Number(f.average_rating) || 0`). -/
def jsNum (o : Option ℚ) : ℚ := o.getD 0

/-- JavaScript truthiness of a nullable rating: `null` and `0` are falsy,
every other number is truthy (used by `filter(f => f.average_rating)` and
by `if (!rating)`). -/
def jsTruthy (o : Option ℚ) : Bool :=
  match o with
  | none => false
  | some r => decide (r ≠ 0)

/-! Sentiment distribution, from `Analytics.tsx` lines 71 to 90 (the same
three filters appear in `EnhancedDashboardOverview.tsx` lines 67 to 72).
Each bucket filters the full list; a null rating is coerced to 0. -/

/-- Rows counted Positive: `(Number(f.average_rating) || 0) >= 4`. -/
def positiveCount (L : List Feedback) : ℕ :=
  (L.filter (fun f => decide (4 ≤ jsNum f.average_rating))).length

/-- Rows counted Neutral: `rating >= 2.5 && rating < 4` on the coerced rating. -/
def neutralCount (L : List Feedback) : ℕ :=
  (L.filter (fun f =>
    decide (5/2 ≤ jsNum f.average_rating) && decide (jsNum f.average_rating < 4))).length

/-- Rows counted Negative: `(Number(f.average_rating) || 0) < 2.5`. -/
def negativeCount (L : List Feedback) : ℕ :=
  (L.filter (fun f => decide (jsNum f.average_rating < 5/2))).length

/-- Rows whose rating column is non-null (what the claim says the buckets
should partition). -/
def nonNullCount (L : List Feedback) : ℕ :=
  (L.filter (fun f => f.average_rating.isSome)).length

/-! Rating averages.  Two distinct computations exist in the repository. -/

/-- The Analytics screen average, `stats.avgRating` in `Analytics.tsx`
lines 143 to 148: it sums `Number(f.average_rating) || 0` over every row
and divides by the total row count (null ratings contribute 0 to the sum
but still count in the divisor). -/
def analyticsAvgRating (L : List Feedback) : ℚ :=
  (L.map (fun f => jsNum f.average_rating)).sum / (L.length : ℚ)

/-- The rows the dashboard overview keeps for its average:
`feedbackData.filter(f => f.average_rating)` (JavaScript truthiness, so
both null and 0 ratings are dropped). -/
def ratingsData (L : List Feedback) : List Feedback :=
  L.filter (fun f => jsTruthy f.average_rating)

/-- Rounding to one decimal place, modelling `Number(x.toFixed(1))` on the
non-negative ratings that occur here. -/
def toFixed1 (q : ℚ) : ℚ := ((round (q * 10) : ℤ) : ℚ) / 10

/-- The dashboard overview average before rounding: mean of the coerced
rating over `ratingsData`, and 0 when `ratingsData` is empty. -/
def dashboardAverageRatingRaw (L : List Feedback) : ℚ :=
  if (ratingsData L).length = 0 then 0
  else ((ratingsData L).map (fun f => jsNum f.average_rating)).sum / ((ratingsData L).length : ℚ)

/-- The dashboard overview average as stored:
`Number(averageRating.toFixed(1))`. -/
def dashboardAverageRating (L : List Feedback) : ℚ :=
  toFixed1 (dashboardAverageRatingRaw L)

/-- Spec-side definition, following the words of the claim: the ratings of
the rows where `average_rating` is present (non-null). -/
def specPresentRatings (L : List Feedback) : List ℚ :=
  L.filterMap (fun f => f.average_rating)

/-- Spec-side definition, following the words of the claim: 0 when the
list is empty, otherwise the arithmetic mean over present ratings. -/
def specAverage (L : List Feedback) : ℚ :=
  if L.isEmpty then 0
  else (specPresentRatings L).sum / ((specPresentRatings L).length : ℚ)

/-! Rating-band filters.  The repository builds them in two places with
different selector values and different bounds. -/

/-- The AdvancedSearch rating filter (`AdvancedSearch.tsx` lines 74 to 86):
whether a stored rating `r` passes the band selector.  A selector that is
neither a recognised band nor `all` adds no constraint, as in the source. -/
def advRatingMatch (band : String) (r : ℚ) : Bool :=
  if band = "all" then true
  else if band = "5" then decide (9/2 ≤ r)
  else if band = "4" then decide (7/2 ≤ r) && decide (r < 9/2)
  else if band = "3" then decide (5/2 ≤ r) && decide (r < 7/2)
  else if band = "2" then decide (3/2 ≤ r) && decide (r < 5/2)
  else if band = "1" then decide (r < 3/2)
  else true

/-- The FeedbackManagement rating filter (`FeedbackManagement.tsx` lines 44
to 55): its selector values are `4+`, `3+`, `2+`, `1+` and its bounds sit
at the integers. -/
def fmRatingMatch (band : String) (r : ℚ) : Bool :=
  if band = "all" then true
  else if band = "4+" then decide (4 ≤ r)
  else if band = "3+" then decide (3 ≤ r) && decide (r < 4)
  else if band = "2+" then decide (2 ≤ r) && decide (r < 3)
  else if band = "1+" then decide (r < 2)
  else true

/-! The FeedbackManagement screen state and its handlers
(`FeedbackManagement.tsx` lines 161 to 208). -/

/-- FeedbackManagement UI state: the three filter fields and the 1-based
current page. -/
structure FMState where
  searchTerm : String
  ratingFilter : String
  dateFilter : String
  currentPage : ℕ
  deriving DecidableEq

/-- The search input handler: `onChange` calls `setSearchTerm` only. -/
def setSearchTermAction (v : String) (s : FMState) : FMState :=
  { s with searchTerm := v }

/-- The rating select handler: `onValueChange` calls `setRatingFilter` only. -/
def setRatingFilterAction (v : String) (s : FMState) : FMState :=
  { s with ratingFilter := v }

/-- The date select handler: `onValueChange` calls `setDateFilter` only. -/
def setDateFilterAction (v : String) (s : FMState) : FMState :=
  { s with dateFilter := v }

/-- The Clear Filters button: resets all three filters and the page. -/
def clearFiltersAction : FMState :=
  { searchTerm := "", ratingFilter := "all", dateFilter := "all", currentPage := 1 }

/-! Pagination (`FeedbackManagement.tsx`: `ITEMS_PER_PAGE`, the `totalPages`
computation in the query, and the Previous / Next controls). -/

def ITEMS_PER_PAGE : ℕ := 10

/-- Total pages: `Math.ceil(count / ITEMS_PER_PAGE)` on a non-negative exact count. -/
def totalPages (count : ℕ) : ℕ :=
  (Int.ceil ((count : ℚ) / (ITEMS_PER_PAGE : ℚ))).toNat

/-- The Previous control: `setCurrentPage(prev => Math.max(1, prev - 1))`. -/
def prevPage (p : ℕ) : ℕ := max 1 (p - 1)

/-- The Next control: `setCurrentPage(prev => Math.min(totalPages, prev + 1))`. -/
def nextPage (tp p : ℕ) : ℕ := min tp (p + 1)

/-- The Previous button is disabled when `currentPage === 1`. -/
def prevDisabled (p : ℕ) : Bool := p == 1

/-- The Next button is disabled when `currentPage === totalPages`. -/
def nextDisabled (tp p : ℕ) : Bool := p == tp

/-! The notification bridge (`RealTimeNotifications.tsx`). -/

inductive Priority
  | low
  | medium
  | high
  deriving DecidableEq

inductive NotifType
  | feedback
  | issue
  | team
  | system
  deriving DecidableEq

/-- Priority of a new-feedback notification, from the feedback INSERT
handler: `Number(payload.new.average_rating) < 3 ? high : medium`.
`Number(null)` is 0, so the coercion is `jsNum`. -/
def feedbackPriority (rating : Option ℚ) : Priority :=
  if jsNum rating < 3 then .high else .medium

/-- Priority of a new-issue notification, from the issue INSERT handler:
always `high`. -/
def issuePriority : Priority := .high

/-- An in-memory notification, restricted to the fields the verified
logic distinguishes. -/
structure Notification where
  id : String
  ntype : NotifType
  read : Bool
  priority : Priority
  deriving DecidableEq

/-- List update shared by both INSERT handlers:
`setNotifications(prev => [newNotification, ...prev.slice(0, 9)])`. -/
def insertNotification (n : Notification) (prev : List Notification) : List Notification :=
  n :: prev.take 9

/-- The notification list after a sequence of insert events is delivered
in order, starting from the initial empty list. -/
def notifState (events : List Notification) : List Notification :=
  events.foldl (fun acc n => insertNotification n acc) []

/-- A concrete notification used in finite scenarios. -/
def mkNotif (i : ℕ) : Notification :=
  { id := toString i, ntype := .system, read := false, priority := .low }

/-! The dashboard overview statistics (`loadDashboardData` in the unnamed
dashboard component, `src/unnamed/part_002`).  The two `Math.random()`
mocks and the seven `Math.random()` calls of `ratingTrends` are made
explicit as reads of an ambient stream `rand` at successive positions. -/

structure Issue where
  issue_title : String
  deriving DecidableEq

/-- One step of the `issueCounts` accumulator:
`acc[title] = (acc[title] || 0) + 1` on a JavaScript object, whose keys
keep first-insertion order. -/
def bumpCount : List (String × ℕ) → String → List (String × ℕ)
  | [], t => [(t, 1)]
  | (k, c) :: rest, t =>
    if k = t then (k, c + 1) :: rest else (k, c) :: bumpCount rest t

/-- Issue counts by title, keys in first-occurrence order. -/
def issueCounts (issues : List Issue) : List (String × ℕ) :=
  issues.foldl (fun acc i => bumpCount acc i.issue_title) []

/-- Stable insertion keeping a list sorted by descending count: the new
entry goes after every entry with a count at least its own, which is the
observable behaviour of the stable `sort((a, b) => b.count - a.count)`. -/
def insertByCountDesc (x : String × ℕ) : List (String × ℕ) → List (String × ℕ)
  | [] => [x]
  | y :: ys => if y.2 < x.2 then x :: y :: ys else y :: insertByCountDesc x ys

/-- Stable sort by descending count. -/
def sortByCountDesc (l : List (String × ℕ)) : List (String × ℕ) :=
  l.foldl (fun acc x => insertByCountDesc x acc) []

/-- Top issues: sort the counted titles by descending count, keep 3. -/
def topIssues (issues : List Issue) : List (String × ℕ) :=
  (sortByCountDesc (issueCounts issues)).take 3

structure DashboardStats where
  totalFeedback : ℕ
  averageRating : ℚ
  weeklyChange : ℚ
  monthlyChange : ℚ
  sentimentDistribution : List (String × ℕ)
  ratingTrends : List (ℤ × ℚ)
  topIssues : List (String × ℕ)
  deriving DecidableEq

def MS_PER_DAY : ℤ := 86400000

/-- One call of the dashboard statistics computation.  `rand` is the
ambient `Math.random()` stream and `start` the position of its next unread
value: `ratingTrends` consumes positions `start` to `start + 6` (its seven
entries, dates taken relative to `now`), then `weeklyChange` reads
`start + 7` and `monthlyChange` reads `start + 8`.  `sentimentDistribution`
is the hard-coded mock.  `totalFeedback` is the exact row count. -/
def loadDashboardStats (rand : ℕ → ℚ) (start : ℕ) (now : ℤ)
    (L : List Feedback) (issues : List Issue) : DashboardStats :=
  { totalFeedback := L.length
    averageRating := dashboardAverageRating L
    weeklyChange := rand (start + 7) * 20 - 10
    monthlyChange := rand (start + 8) * 30 - 15
    sentimentDistribution := [("Positive", 45), ("Neutral", 35), ("Negative", 20)]
    ratingTrends := (List.range 7).map
      (fun (i : ℕ) => (now - (6 - (i : ℤ)) * MS_PER_DAY, rand (start + i) * 2 + 3))
    topIssues := topIssues issues }

/-- Two successive calls with the same input list: the second call starts
reading the random stream where the first stopped (9 values later). -/
def callDashboardTwice (rand : ℕ → ℚ) (now : ℤ)
    (L : List Feedback) (issues : List Issue) : DashboardStats × DashboardStats :=
  (loadDashboardStats rand 0 now L issues, loadDashboardStats rand 9 now L issues)

/-- A concrete random stream: 0 for the first nine reads, 1/2 afterwards. -/
def c8rand : ℕ → ℚ := fun n => if n < 9 then 0 else 1/2

/-! The AdvancedSearch filter state (`AdvancedSearch.tsx` lines 30 to 38,
130 and 152 to 156). -/

structure SearchFilters where
  query : String
  rating : String
  dateRange : String
  sender : String
  sortBy : String
  sortOrder : String
  category : String
  deriving DecidableEq

/-- The initial `useState` filter record. -/
def defaultFilters : SearchFilters :=
  { query := "", rating := "all", dateRange := "all", sender := "",
    sortBy := "received_at", sortOrder := "desc", category := "all" }

/-- Entries of `Object.entries(filters)` in declaration order. -/
def filterEntries (f : SearchFilters) : List (String × String) :=
  [("query", f.query), ("rating", f.rating), ("dateRange", f.dateRange),
   ("sender", f.sender), ("sortBy", f.sortBy), ("sortOrder", f.sortOrder),
   ("category", f.category)]

/-- The query gate, from the `enabled` option of the search query:
`Object.values(filters).some(...)`, true when some field value differs
from both the empty string and the string `all`. -/
def searchEnabled (f : SearchFilters) : Bool :=
  (filterEntries f).any (fun kv => kv.2 != "" && kv.2 != "all")

/-- The active-filter badge count: entries that are neither empty nor
`all`, not counting `sortBy` and `sortOrder`. -/
def activeFiltersCount (f : SearchFilters) : ℕ :=
  ((filterEntries f).filter (fun kv =>
    kv.2 != "" && kv.2 != "all" && kv.1 != "sortBy" && kv.1 != "sortOrder")).length

/-! The sentiment badge of the feedback table
(`getSentimentBadge`, `FeedbackManagement.tsx` lines 114 to 120). -/

inductive SentimentBadge
  | notRated
  | positive
  | neutral
  | negative
  deriving DecidableEq

/-- Sentiment badge: `if (!rating) return NotRated; if (rating >= 4) Positive;
if (rating >= 2.5) Neutral; Negative`.  The guard `!rating` is JavaScript
falsiness: both a null rating and a zero rating fall into it. -/
def getSentimentBadge (rating : Option ℚ) : SentimentBadge :=
  if jsTruthy rating = false then .notRated
  else if 4 ≤ jsNum rating then .positive
  else if 5/2 ≤ jsNum rating then .neutral
  else .negative

end EchoInsight

/-! Helper lemmas shared by the claim theorems. -/

namespace EchoInsight

/-- When no row carries a zero rating, the truthiness filter of the
dashboard average keeps exactly the rows with a non-null rating. -/
theorem ratingsData_eq_filter_isSome (L : List Feedback)
    (h : ∀ f ∈ L, f.average_rating ≠ some 0) :
    ratingsData L = L.filter (fun f => f.average_rating.isSome) := by
  unfold ratingsData
  apply List.filter_congr
  intro f hf
  cases hav : f.average_rating with
  | none => simp [jsTruthy, hav]
  | some r =>
    have hr : r ≠ 0 := by
      intro e
      exact h f hf (by rw [hav, e])
    simp [jsTruthy, hav, hr]

/-- Reading the coerced rating off the rows with a non-null rating gives
exactly the list of present ratings. -/
theorem map_jsNum_filter_isSome (L : List Feedback) :
    (L.filter (fun f => f.average_rating.isSome)).map (fun f => jsNum f.average_rating) =
      specPresentRatings L := by
  induction L with
  | nil => rfl
  | cons f t ih =>
    cases hav : f.average_rating with
    | none => simpa [specPresentRatings, List.filter_cons, List.filterMap_cons, hav]
        using ih
    | some r => simpa [specPresentRatings, List.filter_cons, List.filterMap_cons, hav, jsNum]
        using ih

/-- The spec-side average equals the quotient form unconditionally (the
empty case agrees because an empty sum over a zero divisor is 0). -/
theorem specAverage_eq_quot (L : List Feedback) :
    specAverage L = (specPresentRatings L).sum / ((specPresentRatings L).length : ℚ) := by
  cases L with
  | nil => simp [specAverage, specPresentRatings]
  | cons f t => simp [specAverage]

/-- The notification list after any event sequence is the reversed
sequence truncated to 10. -/
theorem notifState_eq_take_reverse (events : List Notification) :
    notifState events = events.reverse.take 10 := by
  induction events using List.reverseRecOn with
  | nil => rfl
  | append_singleton es x ih =>
    have step : notifState (es ++ [x]) = insertNotification x (notifState es) := by
      simp [notifState, List.foldl_append]
    rw [step, ih, insertNotification, List.reverse_append]
    simp [List.take_take]

/-! Claim theorems. -/

/-- C1, counterexample: on the one-row list whose rating is null, the
three sentiment buckets sum to 1 while the count of non-null-rated rows
is 0 — the claimed equality `positive + neutral + negative = count of
non-null-rated rows` fails, because the pipeline coerces a null rating
to 0 instead of excluding the row. -/
theorem C1_counterexample :
    positiveCount [Feedback.mk none] + neutralCount [Feedback.mk none] +
      negativeCount [Feedback.mk none] ≠ nonNullCount [Feedback.mk none] := by
  simp [positiveCount, neutralCount, negativeCount, nonNullCount, jsNum, List.filter]

/-- C1, amended: for every list of feedback rows the three sentiment
buckets (rating at least 4; at least 2.5 and below 4; below 2.5, all on
the null-to-0 coerced rating) partition every row, so their sizes sum to
the total number of rows; in particular a null-rated row lands in the
Negative bucket. -/
theorem C1_buckets_partition_all_rows :
    (∀ L : List Feedback,
      positiveCount L + neutralCount L + negativeCount L = L.length) ∧
    negativeCount [Feedback.mk none] = 1 := by
  constructor
  · intro L
    induction L with
    | nil => rfl
    | cons f t ih =>
      by_cases h4 : (4:ℚ) ≤ jsNum f.average_rating
      · have hn4 : ¬ jsNum f.average_rating < 4 := not_lt.mpr h4
        have hn25 : ¬ jsNum f.average_rating < 5/2 :=
          not_lt.mpr (le_trans (by norm_num) h4)
        simp [positiveCount, neutralCount, negativeCount, List.filter_cons,
          h4, hn4, hn25] at *
        omega
      · by_cases h25 : (5/2:ℚ) ≤ jsNum f.average_rating
        · have hl4 : jsNum f.average_rating < 4 := not_le.mp h4
          have hn25 : ¬ jsNum f.average_rating < 5/2 := not_lt.mpr h25
          simp [positiveCount, neutralCount, negativeCount, List.filter_cons,
            h4, h25, hl4, hn25] at *
          omega
        · have hl25 : jsNum f.average_rating < 5/2 := not_le.mp h25
          simp [positiveCount, neutralCount, negativeCount, List.filter_cons,
            h4, h25, hl25] at *
          omega
  · simp [negativeCount, jsNum, List.filter]

/-- C2, counterexample: on the two-row list with ratings null and 4, the
Analytics average (`stats.avgRating`) is 2 — the null row contributes 0
to the sum but still counts in the divisor — while the claimed average
over present ratings only is 4. -/
theorem C2_counterexample :
    analyticsAvgRating [Feedback.mk none, Feedback.mk (some 4)] = 2 ∧
    specAverage [Feedback.mk none, Feedback.mk (some 4)] = 4 := by
  constructor
  · simp [analyticsAvgRating, jsNum]
    norm_num
  · simp [specAverage, specPresentRatings]

/-- C2, amended: the dashboard overview average is 0 on the empty list,
and on any list none of whose rows carries a rating of exactly 0 it
equals the arithmetic mean of the present (non-null) ratings rounded to
one decimal place.  (The dashboard filter uses JavaScript truthiness, so
it would also drop a zero rating; and the Analytics screen average
instead divides the coerced sum by the total row count, per the
counterexample.) -/
theorem C2_dashboard_average_amended :
    dashboardAverageRating [] = 0 ∧
    ∀ L : List Feedback, (∀ f ∈ L, f.average_rating ≠ some 0) →
      dashboardAverageRating L = toFixed1 (specAverage L) := by
  constructor
  · simp [dashboardAverageRating, dashboardAverageRatingRaw, ratingsData, toFixed1]
  · intro L h
    have h1 := ratingsData_eq_filter_isSome L h
    have hlen : (L.filter (fun f => f.average_rating.isSome)).length =
        (specPresentRatings L).length := by
      rw [← map_jsNum_filter_isSome L, List.length_map]
    unfold dashboardAverageRating dashboardAverageRatingRaw
    rw [h1, map_jsNum_filter_isSome, specAverage_eq_quot, hlen]
    by_cases h0 : (specPresentRatings L).length = 0
    · rw [List.length_eq_zero] at h0
      simp [h0, toFixed1]
    · simp [h0]

/-- C2, witness: the amended statement applied to the concrete list with
ratings 4 and 3, whose rows all carry non-zero ratings. -/
theorem C2_witness :
    dashboardAverageRating [Feedback.mk (some 4), Feedback.mk (some 3)] =
      toFixed1 (specAverage [Feedback.mk (some 4), Feedback.mk (some 3)]) :=
  C2_dashboard_average_amended.2 _ (by simp)

/-- C3, counterexample: the FeedbackManagement rating filter does not
implement the claimed half-integer bands — its middle band (selector
`3+`, labelled 3 to 4 stars) rejects rating 2.5 and accepts rating 3.5,
exactly the opposite of the claimed band `3` = [2.5, 3.5), which the
AdvancedSearch filter does implement. -/
theorem C3_counterexample :
    fmRatingMatch "3+" (5/2) = false ∧ fmRatingMatch "3+" (7/2) = true ∧
    advRatingMatch "3" (5/2) = true ∧ advRatingMatch "3" (7/2) = false := by
  refine ⟨?_, ?_, ?_, ?_⟩ <;> simp [fmRatingMatch, advRatingMatch] <;> norm_num

/-- C3, amended: the AdvancedSearch rating filter maps its selector
values to exactly the claimed intervals — `5` to [4.5, ∞), `4` to
[3.5, 4.5), `3` to [2.5, 3.5), `2` to [1.5, 2.5), `1` to below 1.5 — and
band `3` over the ratings [2.4, 2.5, 3.4, 3.5] keeps exactly 2.5 and
3.4; the FeedbackManagement rating filter instead uses integer bounds:
`4+` is [4, ∞), `3+` is [3, 4), `2+` is [2, 3), `1+` is below 2. -/
theorem C3_rating_bands :
    (∀ r : ℚ, advRatingMatch "5" r = true ↔ 9/2 ≤ r) ∧
    (∀ r : ℚ, advRatingMatch "4" r = true ↔ 7/2 ≤ r ∧ r < 9/2) ∧
    (∀ r : ℚ, advRatingMatch "3" r = true ↔ 5/2 ≤ r ∧ r < 7/2) ∧
    (∀ r : ℚ, advRatingMatch "2" r = true ↔ 3/2 ≤ r ∧ r < 5/2) ∧
    (∀ r : ℚ, advRatingMatch "1" r = true ↔ r < 3/2) ∧
    ([12/5, 5/2, 17/5, 7/2].filter (advRatingMatch "3") = [5/2, 17/5]) ∧
    (∀ r : ℚ, fmRatingMatch "4+" r = true ↔ 4 ≤ r) ∧
    (∀ r : ℚ, fmRatingMatch "3+" r = true ↔ 3 ≤ r ∧ r < 4) ∧
    (∀ r : ℚ, fmRatingMatch "2+" r = true ↔ 2 ≤ r ∧ r < 3) ∧
    (∀ r : ℚ, fmRatingMatch "1+" r = true ↔ r < 2) := by
  refine ⟨?_, ?_, ?_, ?_, ?_, ?_, ?_, ?_, ?_, ?_⟩ <;>
    first
    | (intro r; simp [advRatingMatch, fmRatingMatch])
    | (simp [advRatingMatch, List.filter]; norm_num)

/-- C4: evaluated at the failing input, the rating-filter change handler
applied on page 3 leaves `currentPage` at 3 (the claim requires a reset
to 1); none of the three filter change handlers touches `currentPage`,
and only the Clear Filters action resets it to 1. -/
theorem C4_filter_change_keeps_page :
    (setRatingFilterAction "4+"
      { searchTerm := "", ratingFilter := "all", dateFilter := "all",
        currentPage := 3 }).currentPage = 3 ∧
    (∀ v s, (setSearchTermAction v s).currentPage = s.currentPage) ∧
    (∀ v s, (setRatingFilterAction v s).currentPage = s.currentPage) ∧
    (∀ v s, (setDateFilterAction v s).currentPage = s.currentPage) ∧
    clearFiltersAction.currentPage = 1 :=
  ⟨rfl, fun _ _ => rfl, fun _ _ => rfl, fun _ _ => rfl, rfl⟩

/-- C5: `totalPages` of 23 rows at page size 10 is 3; the Next and
Previous controls keep the page inside [1, totalPages]; stepping forward
on the last page stays on it and stepping back from page 1 stays on it;
Previous is disabled exactly on page 1 and Next exactly on the last
page. -/
theorem C5_pagination_controller :
    totalPages 23 = 3 ∧
    (∀ tp p, 1 ≤ p → p ≤ tp →
      1 ≤ nextPage tp p ∧ nextPage tp p ≤ tp ∧ 1 ≤ prevPage p ∧ prevPage p ≤ tp) ∧
    nextPage 3 3 = 3 ∧ nextPage 3 4 = 3 ∧ prevPage 1 = 1 ∧
    (∀ p, prevDisabled p = true ↔ p = 1) ∧
    (∀ tp p, nextDisabled tp p = true ↔ p = tp) := by
  refine ⟨?_, ?_, rfl, rfl, rfl, ?_, ?_⟩
  · have h : Int.ceil ((23 : ℚ) / (10 : ℚ)) = (3 : ℤ) := by
      rw [Int.ceil_eq_iff]
      constructor <;> norm_num
    unfold totalPages ITEMS_PER_PAGE
    norm_num [h]
    rfl
  · intro tp p h1 h2
    unfold nextPage prevPage
    omega
  · intro p
    simp [prevDisabled]
  · intro tp p
    simp [nextDisabled]

/-- C5, witness: the clamping invariant instantiated at page 2 of 3. -/
theorem C5_witness :
    1 ≤ nextPage 3 2 ∧ nextPage 3 2 ≤ 3 ∧ 1 ≤ prevPage 2 ∧ prevPage 2 ≤ 3 :=
  C5_pagination_controller.2.1 3 2 (by decide) (by decide)

/-- C6, counterexample: an insert event whose rating is null produces a
`high`-priority feedback notification (`Number(null)` is 0, and 0 < 3),
although the rating is not present — the claim would demand `medium`. -/
theorem C6_counterexample :
    feedbackPriority none = Priority.high ∧
    ¬ ∃ r : ℚ, (none : Option ℚ) = some r ∧ r < 3 := by
  constructor
  · norm_num [feedbackPriority, jsNum]
  · rintro ⟨r, h, _⟩
    exact Option.noConfusion h

/-- C6, amended: a new-feedback notification has priority `high` exactly
when the JavaScript numeric coercion of its rating (null coerced to 0)
is below 3 — so a null-rated feedback is `high`, a present rating below
3 is `high`, and everything else is `medium`; a new-issue notification
is always `high`. -/
theorem C6_priority_amended :
    (∀ o : Option ℚ, feedbackPriority o = Priority.high ↔ jsNum o < 3) ∧
    (∀ o : Option ℚ, feedbackPriority o = Priority.medium ↔ 3 ≤ jsNum o) ∧
    feedbackPriority none = Priority.high ∧
    (∀ r : ℚ, feedbackPriority (some r) = Priority.high ↔ r < 3) ∧
    issuePriority = Priority.high := by
  have hhigh : ∀ o : Option ℚ, feedbackPriority o = Priority.high ↔ jsNum o < 3 := by
    intro o
    by_cases h : jsNum o < 3 <;> simp [feedbackPriority, h]
  refine ⟨hhigh, ?_, ?_, ?_, rfl⟩
  · intro o
    by_cases h : jsNum o < 3 <;> simp [feedbackPriority, h, not_lt, le_of_not_lt]
  · norm_num [feedbackPriority, jsNum]
  · intro r
    simpa [jsNum] using hhigh (some r)

/-- C7: the notification list after any sequence of insert events is the
10 most recent events newest first (the reversed sequence truncated to
10), hence never holds more than 10 entries; inserting 12 notifications
sequentially leaves exactly the 10 most recent, newest first. -/
theorem C7_retention :
    (∀ events : List Notification, notifState events = events.reverse.take 10) ∧
    (∀ events : List Notification, (notifState events).length ≤ 10) ∧
    notifState ((List.range 12).map mkNotif) =
      [mkNotif 11, mkNotif 10, mkNotif 9, mkNotif 8, mkNotif 7, mkNotif 6,
       mkNotif 5, mkNotif 4, mkNotif 3, mkNotif 2] := by
  refine ⟨notifState_eq_take_reverse, ?_, ?_⟩
  · intro events
    rw [notifState_eq_take_reverse]
    simp [List.length_take]
  · rfl

/-- C8, counterexample: two successive calls of the dashboard statistics
computation on the same (empty) input list disagree — the second call
reads the ambient `Math.random()` stream nine positions further, so with
a stream returning 0 nine times and then 1/2, the first call computes
`weeklyChange = -10` and the second `weeklyChange = 0`.  The pipeline is
therefore not a pure function of its input list. -/
theorem C8_counterexample :
    (callDashboardTwice c8rand 0 [] []).1 ≠ (callDashboardTwice c8rand 0 [] []).2 := by
  intro h
  have hw := congrArg DashboardStats.weeklyChange h
  simp [callDashboardTwice, loadDashboardStats, c8rand] at hw
  norm_num at hw

/-- C8, amended: the dashboard statistics computation is deterministic
given the input rows, the clock and the random stream; its
`totalFeedback`, `averageRating`, `sentimentDistribution` and
`topIssues` fields depend on the input rows alone (identical across
calls whatever the stream position or clock), while `weeklyChange` (and
likewise `monthlyChange` and `ratingTrends`) reads the stream at
positions that advance between calls. -/
theorem C8_pipeline_purity_amended :
    (∀ (rand rand' : ℕ → ℚ) (start start' : ℕ) (now now' : ℤ)
        (L : List Feedback) (issues : List Issue),
      (loadDashboardStats rand start now L issues).totalFeedback =
        (loadDashboardStats rand' start' now' L issues).totalFeedback ∧
      (loadDashboardStats rand start now L issues).averageRating =
        (loadDashboardStats rand' start' now' L issues).averageRating ∧
      (loadDashboardStats rand start now L issues).sentimentDistribution =
        (loadDashboardStats rand' start' now' L issues).sentimentDistribution ∧
      (loadDashboardStats rand start now L issues).topIssues =
        (loadDashboardStats rand' start' now' L issues).topIssues) ∧
    (∀ (rand : ℕ → ℚ) (now : ℤ) (L : List Feedback) (issues : List Issue),
      (callDashboardTwice rand now L issues).1.weeklyChange = rand 7 * 20 - 10 ∧
      (callDashboardTwice rand now L issues).2.weeklyChange = rand 16 * 20 - 10) :=
  ⟨fun _ _ _ _ _ _ _ _ => ⟨rfl, rfl, rfl, rfl⟩, fun _ _ _ _ => ⟨rfl, rfl⟩⟩

/-- C9, counterexample: with every filter field at its default value the
query gate `enabled` is still true — the defaults of `sortBy`
(`received_at`) and `sortOrder` (`desc`) are neither the empty string
nor `all` — so a search query is issued, contrary to the claim. -/
theorem C9_counterexample :
    searchEnabled defaultFilters = true := by
  rfl

/-- C9, amended: at the default filter state the active-filter count is
0 (the composer does signal that no filter is active), but the query
gate `enabled` evaluates to true because it also inspects `sortBy` and
`sortOrder`, so the search query is issued anyway. -/
theorem C9_default_filters_amended :
    activeFiltersCount defaultFilters = 0 ∧ searchEnabled defaultFilters = true := by
  constructor <;> rfl

/-- C10: the sentiment badge shows Not Rated exactly on a null or zero
rating (a zero rating is never classified Negative), Negative on a
non-zero rating below 2.5, Neutral on a rating in [2.5, 4), and Positive
on a rating of at least 4. -/
theorem C10_sentiment_badge :
    getSentimentBadge none = SentimentBadge.notRated ∧
    getSentimentBadge (some 0) = SentimentBadge.notRated ∧
    getSentimentBadge (some 0) ≠ SentimentBadge.negative ∧
    (∀ r : ℚ, getSentimentBadge (some r) = SentimentBadge.negative ↔ r ≠ 0 ∧ r < 5/2) ∧
    (∀ r : ℚ, getSentimentBadge (some r) = SentimentBadge.neutral ↔ 5/2 ≤ r ∧ r < 4) ∧
    (∀ r : ℚ, getSentimentBadge (some r) = SentimentBadge.positive ↔ 4 ≤ r) := by
  have key : ∀ r : ℚ, r ≠ 0 →
      getSentimentBadge (some r) =
        (if 4 ≤ r then SentimentBadge.positive
         else if 5/2 ≤ r then SentimentBadge.neutral
         else SentimentBadge.negative) := by
    intro r h0
    simp [getSentimentBadge, jsTruthy, jsNum, h0]
  have hzero : getSentimentBadge (some 0) = SentimentBadge.notRated := by
    simp [getSentimentBadge, jsTruthy]
  refine ⟨rfl, hzero, by simp [hzero], ?_, ?_, ?_⟩
  · intro r
    by_cases h0 : r = 0
    · subst h0
      simp [hzero]
    · rw [key r h0]
      by_cases h4 : (4:ℚ) ≤ r
      · have h25 : ¬ r < 5/2 := not_lt.mpr (le_trans (by norm_num) h4)
        simp [h4, h0, h25]
      · by_cases h25 : (5/2:ℚ) ≤ r
        · simp [h4, h25, h0, not_lt.mpr h25]
        · simp [h4, h25, h0, not_le.mp h25]
  · intro r
    by_cases h0 : r = 0
    · subst h0
      simp [hzero]
    · rw [key r h0]
      by_cases h4 : (4:ℚ) ≤ r
      · have : ¬ r < 4 := not_lt.mpr h4
        simp [h4, this]
      · by_cases h25 : (5/2:ℚ) ≤ r
        · simp [h4, h25, not_le.mp h4]
        · simp [h4, h25]
  · intro r
    by_cases h0 : r = 0
    · subst h0
      simp [hzero]
    · rw [key r h0]
      by_cases h4 : (4:ℚ) ≤ r
      · simp [h4]
      · by_cases h25 : (5/2:ℚ) ≤ r <;> simp [h4, h25]

end EchoInsight
